import Mathlib

/-!
Verification of the minssh interactive terminal session engine.

The definitions below are shallow embeddings of the Go functions of the
repository (pkg/minssh): the Windows console input translator
(`toAnsiSeq`, `ansiReader.Read`), the stdin/resize pumps, the session
runner (`RunInteractive`), the exit-message formatter and the terminal
mode controller.  Machine integers (word/dword/wchar) are modelled as
`Nat`; byte sequences as `List Nat`.
-/

/-- virtual key codes (ansi_windows.go, iota blocks). -/
def vk_back : Nat := 8

def vk_pause : Nat := 19

def vk_escape : Nat := 27

def vk_prior : Nat := 33

def vk_next : Nat := 34

def vk_end : Nat := 35

def vk_home : Nat := 36

def vk_left : Nat := 37

def vk_up : Nat := 38

def vk_right : Nat := 39

def vk_down : Nat := 40

def vk_insert : Nat := 45

def vk_delete : Nat := 46

def vk_f1 : Nat := 112

def vk_f2 : Nat := 113

def vk_f3 : Nat := 114

def vk_f4 : Nat := 115

def vk_f5 : Nat := 116

def vk_f6 : Nat := 117

def vk_f7 : Nat := 118

def vk_f8 : Nat := 119

def vk_f9 : Nat := 120

def vk_f10 : Nat := 121

def vk_f11 : Nat := 122

def vk_f12 : Nat := 123

/-- control key state bits (ansi_windows.go). -/
def left_alt_pressed : Nat := 0x0002

def right_alt_pressed : Nat := 0x0001

def left_ctrl_pressed : Nat := 0x0008

def right_ctrl_pressed : Nat := 0x0004

/-- Go struct keyEventRecord: keyDown is an int32, the rest are
word/wchar/dword fields, modelled as Nat. -/
structure keyEventRecord where
  keyDown : Int
  repeatCount : Nat
  virtualKeyCode : Nat
  virtualScanCode : Nat
  unicodeChar : Nat
  controlKeyState : Nat
deriving DecidableEq, Repr

/-- Go: k.controlKeyState & (left_ctrl_pressed | right_ctrl_pressed) != 0. -/
def ctrlPressed (k : keyEventRecord) : Prop :=
  k.controlKeyState &&& (left_ctrl_pressed ||| right_ctrl_pressed) ≠ 0

instance (k : keyEventRecord) : Decidable (ctrlPressed k) := by
  unfold ctrlPressed; infer_instance

/-- Go: k.controlKeyState & (left_alt_pressed | right_alt_pressed) != 0. -/
def altPressed (k : keyEventRecord) : Prop :=
  k.controlKeyState &&& (left_alt_pressed ||| right_alt_pressed) ≠ 0

instance (k : keyEventRecord) : Decidable (altPressed k) := by
  unfold altPressed; infer_instance

/-- Go map arrowKeyMap; a missing key yields the zero value, as in Go. -/
def arrowKeyMap (vk : Nat) : Nat :=
  if vk = vk_up then 65
  else if vk = vk_down then 66
  else if vk = vk_right then 67
  else if vk = vk_left then 68
  else if vk = vk_home then 72
  else if vk = vk_end then 70
  else 0

/-- Go map f1ToF4KeyMap. -/
def f1ToF4KeyMap (vk : Nat) : Nat :=
  if vk = vk_f1 then 80
  else if vk = vk_f2 then 81
  else if vk = vk_f3 then 82
  else if vk = vk_f4 then 83
  else 0

/-- Go map f5toF12KeyMap: pairs of ASCII digit bytes. -/
def f5toF12KeyMap (vk : Nat) : Nat × Nat :=
  if vk = vk_f5 then (49, 53)
  else if vk = vk_f6 then (49, 55)
  else if vk = vk_f7 then (49, 56)
  else if vk = vk_f8 then (49, 57)
  else if vk = vk_f9 then (50, 48)
  else if vk = vk_f10 then (50, 49)
  else if vk = vk_f11 then (50, 51)
  else if vk = vk_f12 then (50, 52)
  else (0, 0)

/-- Embedding of ansiReader.toAnsiSeq (ansi_windows.go lines 302-340).
The Go switch on the virtual key code becomes an if-chain; byte strings
are written out as their byte values (0x1b = ESC, 0x5b is the opening
square bracket, 0x7e is the tilde). -/
def toAnsiSeq (k : keyEventRecord) : Option (List Nat) :=
  if k.virtualKeyCode = vk_up ∨ k.virtualKeyCode = vk_down ∨
      k.virtualKeyCode = vk_right ∨ k.virtualKeyCode = vk_left ∨
      k.virtualKeyCode = vk_home ∨ k.virtualKeyCode = vk_end then
    if ctrlPressed k then
      some [0x1b, 0x5b, 0x31, 0x3b, 0x35, arrowKeyMap k.virtualKeyCode]
    else
      some [0x1b, 0x5b, arrowKeyMap k.virtualKeyCode]
  else if k.virtualKeyCode = vk_back then
    if altPressed k ∧ ¬ ctrlPressed k then some [0x1b, 0x08]
    else some [0x7f]
  else if k.virtualKeyCode = vk_pause then some [0x1a]
  else if k.virtualKeyCode = vk_escape then some [0x1b]
  else if k.virtualKeyCode = vk_insert then some [0x1b, 0x5b, 0x32, 0x7e]
  else if k.virtualKeyCode = vk_delete then some [0x1b, 0x5b, 0x33, 0x7e]
  else if k.virtualKeyCode = vk_prior then some [0x1b, 0x5b, 0x35, 0x7e]
  else if k.virtualKeyCode = vk_next then some [0x1b, 0x5b, 0x36, 0x7e]
  else if k.virtualKeyCode = vk_f1 ∨ k.virtualKeyCode = vk_f2 ∨
      k.virtualKeyCode = vk_f3 ∨ k.virtualKeyCode = vk_f4 then
    some [0x1b, 0x4f, f1ToF4KeyMap k.virtualKeyCode]
  else if k.virtualKeyCode = vk_f5 ∨ k.virtualKeyCode = vk_f6 ∨
      k.virtualKeyCode = vk_f7 ∨ k.virtualKeyCode = vk_f8 ∨
      k.virtualKeyCode = vk_f9 ∨ k.virtualKeyCode = vk_f10 ∨
      k.virtualKeyCode = vk_f11 ∨ k.virtualKeyCode = vk_f12 then
    some [0x1b, 0x5b, (f5toF12KeyMap k.virtualKeyCode).1,
      (f5toF12KeyMap k.virtualKeyCode).2, 0x7e]
  else if 0x20 ≤ k.unicodeChar ∧ k.unicodeChar ≤ 0x7e ∧
      altPressed k ∧ ¬ ctrlPressed k then
    some [0x1b, k.unicodeChar]
  else none

/-- Spec 4.3 letter table: Up=A, Down=B, Right=C, Left=D, Home=H, End=F. -/
def specArrowLetter (vk : Nat) : Nat :=
  if vk = vk_up then 65
  else if vk = vk_down then 66
  else if vk = vk_right then 67
  else if vk = vk_left then 68
  else if vk = vk_home then 72
  else if vk = vk_end then 70
  else 0

/-- Spec 4.3: F1-F4 map to the letters P, Q, R, S. -/
def specFnLetter (vk : Nat) : Nat :=
  if vk = vk_f1 then 80
  else if vk = vk_f2 then 81
  else if vk = vk_f3 then 82
  else if vk = vk_f4 then 83
  else 0

/-- Spec 4.3 fixed code table for F5-F12: 15,17,18,19,20,21,23,24. -/
def specFnCode (vk : Nat) : Nat :=
  if vk = vk_f5 then 15
  else if vk = vk_f6 then 17
  else if vk = vk_f7 then 18
  else if vk = vk_f8 then 19
  else if vk = vk_f9 then 20
  else if vk = vk_f10 then 21
  else if vk = vk_f11 then 23
  else if vk = vk_f12 then 24
  else 0

/-- Mapping table of spec section 4.3, written from the spec text: each
group emits the escape sequence the spec prescribes, the two-digit F-key
codes being rendered as their decimal digits. -/
def specTranslate (k : keyEventRecord) : Option (List Nat) :=
  if k.virtualKeyCode = vk_up ∨ k.virtualKeyCode = vk_down ∨
      k.virtualKeyCode = vk_right ∨ k.virtualKeyCode = vk_left ∨
      k.virtualKeyCode = vk_home ∨ k.virtualKeyCode = vk_end then
    if ctrlPressed k then
      some [0x1b, 0x5b, 0x31, 0x3b, 0x35, specArrowLetter k.virtualKeyCode]
    else
      some [0x1b, 0x5b, specArrowLetter k.virtualKeyCode]
  else if k.virtualKeyCode = vk_back then
    if altPressed k ∧ ¬ ctrlPressed k then some [0x1b, 0x08]
    else some [0x7f]
  else if k.virtualKeyCode = vk_pause then some [0x1a]
  else if k.virtualKeyCode = vk_escape then some [0x1b]
  else if k.virtualKeyCode = vk_insert then some [0x1b, 0x5b, 0x32, 0x7e]
  else if k.virtualKeyCode = vk_delete then some [0x1b, 0x5b, 0x33, 0x7e]
  else if k.virtualKeyCode = vk_prior then some [0x1b, 0x5b, 0x35, 0x7e]
  else if k.virtualKeyCode = vk_next then some [0x1b, 0x5b, 0x36, 0x7e]
  else if k.virtualKeyCode = vk_f1 ∨ k.virtualKeyCode = vk_f2 ∨
      k.virtualKeyCode = vk_f3 ∨ k.virtualKeyCode = vk_f4 then
    some [0x1b, 0x4f, specFnLetter k.virtualKeyCode]
  else if k.virtualKeyCode = vk_f5 ∨ k.virtualKeyCode = vk_f6 ∨
      k.virtualKeyCode = vk_f7 ∨ k.virtualKeyCode = vk_f8 ∨
      k.virtualKeyCode = vk_f9 ∨ k.virtualKeyCode = vk_f10 ∨
      k.virtualKeyCode = vk_f11 ∨ k.virtualKeyCode = vk_f12 then
    some [0x1b, 0x5b, 48 + specFnCode k.virtualKeyCode / 10,
      48 + specFnCode k.virtualKeyCode % 10, 0x7e]
  else if 0x20 ≤ k.unicodeChar ∧ k.unicodeChar ≤ 0x7e ∧
      altPressed k ∧ ¬ ctrlPressed k then
    some [0x1b, k.unicodeChar]
  else none

/-- key-down event: Right-Arrow with the left Ctrl bit set. -/
def ctrlRightArrowEvent : keyEventRecord :=
  { keyDown := 1, repeatCount := 1, virtualKeyCode := vk_right,
    virtualScanCode := 0, unicodeChar := 0,
    controlKeyState := left_ctrl_pressed }

/-- C1: for every key-down event the input translator toAnsiSeq
reproduces the spec mapping table of section 4.3 exactly (arrows/Home/End
with and without Ctrl, Backspace with and without Alt, Pause, Escape,
Insert/Delete/PageUp/PageDown, F1-F4, F5-F12 by their fixed code table,
Alt over printable ASCII, nil on everything else); in particular
Ctrl+Right-Arrow yields exactly ESC [ 1 ; 5 C. -/
theorem toAnsiSeq_matches_spec_table :
    (∀ k : keyEventRecord, toAnsiSeq k = specTranslate k) ∧
    toAnsiSeq ctrlRightArrowEvent = some [0x1b, 0x5b, 0x31, 0x3b, 0x35, 0x43] := by
  constructor
  · intro k
    obtain ⟨kd, rc, vk, sc, uc, cs⟩ := k
    simp only [toAnsiSeq, specTranslate]
    by_cases h1 : vk = vk_up ∨ vk = vk_down ∨ vk = vk_right ∨ vk = vk_left ∨
        vk = vk_home ∨ vk = vk_end
    · rw [if_pos h1, if_pos h1]; rfl
    rw [if_neg h1, if_neg h1]
    by_cases h2 : vk = vk_back
    · rw [if_pos h2, if_pos h2]
    rw [if_neg h2, if_neg h2]
    by_cases h3 : vk = vk_pause
    · rw [if_pos h3, if_pos h3]
    rw [if_neg h3, if_neg h3]
    by_cases h4 : vk = vk_escape
    · rw [if_pos h4, if_pos h4]
    rw [if_neg h4, if_neg h4]
    by_cases h5 : vk = vk_insert
    · rw [if_pos h5, if_pos h5]
    rw [if_neg h5, if_neg h5]
    by_cases h6 : vk = vk_delete
    · rw [if_pos h6, if_pos h6]
    rw [if_neg h6, if_neg h6]
    by_cases h7 : vk = vk_prior
    · rw [if_pos h7, if_pos h7]
    rw [if_neg h7, if_neg h7]
    by_cases h8 : vk = vk_next
    · rw [if_pos h8, if_pos h8]
    rw [if_neg h8, if_neg h8]
    by_cases h9 : vk = vk_f1 ∨ vk = vk_f2 ∨ vk = vk_f3 ∨ vk = vk_f4
    · rw [if_pos h9, if_pos h9]; rfl
    rw [if_neg h9, if_neg h9]
    by_cases h10 : vk = vk_f5 ∨ vk = vk_f6 ∨ vk = vk_f7 ∨ vk = vk_f8 ∨
        vk = vk_f9 ∨ vk = vk_f10 ∨ vk = vk_f11 ∨ vk = vk_f12
    · rw [if_pos h10, if_pos h10]
      rcases h10 with h | h | h | h | h | h | h | h <;> subst h <;> rfl
    rw [if_neg h10, if_neg h10]
  · rfl

/-- Go utf16.IsSurrogate: 0xD800 <= r && r < 0xE000. -/
def utf16IsSurrogate (r : Nat) : Prop := 0xd800 ≤ r ∧ r < 0xe000

instance (r : Nat) : Decidable (utf16IsSurrogate r) := by
  unfold utf16IsSurrogate; infer_instance

/-- Go utf16.DecodeRune: a valid high/low pair combines into a
supplementary-plane scalar, anything else gives the replacement
character 0xFFFD. -/
def utf16DecodeRune (r1 r2 : Nat) : Nat :=
  if 0xd800 ≤ r1 ∧ r1 < 0xdc00 ∧ 0xdc00 ≤ r2 ∧ r2 < 0xe000 then
    (r1 - 0xd800) * 0x400 + (r2 - 0xdc00) + 0x10000
  else 0xfffd

/-- Go utf8.EncodeRune on a non-negative rune: one to four bytes;
surrogate halves and out-of-range values encode the replacement
character. -/
def utf8Encode (r : Nat) : List Nat :=
  if r < 0x80 then [r]
  else if r < 0x800 then [0xc0 ||| (r >>> 6), 0x80 ||| (r &&& 0x3f)]
  else if 0xd800 ≤ r ∧ r < 0xe000 then [0xef, 0xbf, 0xbd]
  else if r < 0x10000 then
    [0xe0 ||| (r >>> 12), 0x80 ||| ((r >>> 6) &&& 0x3f), 0x80 ||| (r &&& 0x3f)]
  else if r ≤ 0x10ffff then
    [0xf0 ||| (r >>> 18), 0x80 ||| ((r >>> 12) &&& 0x3f),
      0x80 ||| ((r >>> 6) &&& 0x3f), 0x80 ||| (r &&& 0x3f)]
  else [0xef, 0xbf, 0xbd]

/-- state of the ansiReader: the file descriptor is carried along but the
only mutable datum is lastRune, the pending surrogate half (0 when none
is pending, as in Go). -/
structure AnsiReaderState where
  fd : Nat
  lastRune : Nat
deriving DecidableEq, Repr

/-- character path of ansiReader.Read (ansi_windows.go lines 267-280):
combine with a pending half, or buffer a new surrogate half, or emit the
UTF-8 encoding; returns the emitted bytes and the new lastRune. -/
def processChar (c : Nat) (last : Nat) : List Nat × Nat :=
  if last ≠ 0 then
    if utf16DecodeRune last c = 0 then ([], 0)
    else (utf8Encode (utf16DecodeRune last c), 0)
  else if utf16IsSurrogate c then ([], c)
  else if c = 0 then ([], 0)
  else (utf8Encode c, 0)

/-- keyEvent branch of ansiReader.Read: key-up records are skipped, a
recognized key becomes its escape sequence, anything else goes through
the character path. -/
def processKeyEvent (k : keyEventRecord) (st : AnsiReaderState) :
    List Nat × AnsiReaderState :=
  if k.keyDown ≠ 1 then ([], st)
  else
    match toAnsiSeq k with
    | some seq => (seq, st)
    | none =>
      let p := processChar k.unicodeChar st.lastRune
      (p.1, { st with lastRune := p.2 })

/-- console input records; mouse/window/focus/menu and unknown events are
ignored by Read. -/
inductive InputRecord where
  | key (k : keyEventRecord)
  | mouse
  | windowBufferSize
  | focus
  | menu
  | unknown
deriving DecidableEq, Repr

/-- dispatch of ansiReader.Read on the record event type. -/
def processRecord (st : AnsiReaderState) : InputRecord → List Nat × AnsiReaderState
  | .key k => processKeyEvent k st
  | _ => ([], st)

/-- loop of ansiReader.Read over the batch of records it received,
concatenating the emitted bytes. -/
def ansiRead (recs : List InputRecord) (st : AnsiReaderState) :
    List Nat × AnsiReaderState :=
  match recs with
  | [] => ([], st)
  | r :: rest =>
    let p := processRecord st r
    let q := ansiRead rest p.2
    (p.1 ++ q.1, q.2)

/-- C2: translation of a key event is a pure deterministic function of
the event and of the surrogate-pair buffer alone: two reader states that
agree on lastRune produce the same bytes and the same new lastRune for
any event, and a key-up event is ignored entirely, emitting nothing and
leaving the state untouched. -/
theorem translate_pure_deterministic :
    (∀ (k : keyEventRecord) (s1 s2 : AnsiReaderState),
      s1.lastRune = s2.lastRune →
        (processKeyEvent k s1).1 = (processKeyEvent k s2).1 ∧
        (processKeyEvent k s1).2.lastRune = (processKeyEvent k s2).2.lastRune) ∧
    (∀ (k : keyEventRecord) (s : AnsiReaderState),
      k.keyDown ≠ 1 → processKeyEvent k s = ([], s)) := by
  constructor
  · intro k s1 s2 h
    unfold processKeyEvent
    by_cases hd : k.keyDown ≠ 1
    · rw [if_pos hd, if_pos hd]
      exact ⟨rfl, h⟩
    · rw [if_neg hd, if_neg hd]
      cases toAnsiSeq k with
      | some seq => exact ⟨rfl, h⟩
      | none => rw [h]; exact ⟨rfl, rfl⟩
  · intro k s hk
    unfold processKeyEvent
    rw [if_pos hk]

/-- witness for C2 at a concrete key-up Escape event and two states that
agree on lastRune but differ on fd. -/
theorem translate_pure_deterministic_witness :
    (processKeyEvent ⟨0, 1, vk_escape, 0, 0, 0⟩ ⟨5, 0⟩).1 =
      (processKeyEvent ⟨0, 1, vk_escape, 0, 0, 0⟩ ⟨9, 0⟩).1 ∧
    processKeyEvent ⟨0, 1, vk_escape, 0, 0, 0⟩ ⟨5, 0⟩ = ([], ⟨5, 0⟩) := by
  constructor
  · exact (translate_pure_deterministic.1 ⟨0, 1, vk_escape, 0, 0, 0⟩ ⟨5, 0⟩ ⟨9, 0⟩ rfl).1
  · exact translate_pure_deterministic.2 ⟨0, 1, vk_escape, 0, 0, 0⟩ ⟨5, 0⟩ (by decide)

/-- key-down event carrying only a character payload: no recognized
virtual key, no modifier bits. -/
def mkCharEvent (c : Nat) : keyEventRecord :=
  { keyDown := 1, repeatCount := 1, virtualKeyCode := 0,
    virtualScanCode := 0, unicodeChar := c, controlKeyState := 0 }

lemma toAnsiSeq_mkCharEvent_none (c : Nat) (h : 0x7e < c) :
    toAnsiSeq (mkCharEvent c) = none := by
  unfold toAnsiSeq mkCharEvent
  simp only [vk_up, vk_down, vk_right, vk_left, vk_home, vk_end, vk_back,
    vk_pause, vk_escape, vk_insert, vk_delete, vk_prior, vk_next,
    vk_f1, vk_f2, vk_f3, vk_f4, vk_f5, vk_f6, vk_f7, vk_f8, vk_f9,
    vk_f10, vk_f11, vk_f12]
  norm_num
  omega

lemma processKeyEvent_mkCharEvent (c : Nat) (h : 0x7e < c) (fd l : Nat) :
    processKeyEvent (mkCharEvent c) ⟨fd, l⟩ =
      ((processChar c l).1, ⟨fd, (processChar c l).2⟩) := by
  unfold processKeyEvent
  rw [toAnsiSeq_mkCharEvent_none c h]
  rfl

/-- C3: the surrogate-pair round-trip through the console input path.
Feeding the first half of a surrogate pair buffers it and emits nothing;
feeding the matching second half in the next event emits exactly the
UTF-8 encoding of the one combined character (a single four-byte rune)
and clears the buffer; a lone surrogate half arriving with none pending
is buffered as the first half of a new pending pair. -/
theorem surrogate_pair_roundtrip :
    (∀ hi fd, 0xd800 ≤ hi → hi < 0xdc00 →
      ansiRead [.key (mkCharEvent hi)] ⟨fd, 0⟩ = ([], ⟨fd, hi⟩)) ∧
    (∀ hi lo fd, 0xd800 ≤ hi → hi < 0xdc00 → 0xdc00 ≤ lo → lo < 0xe000 →
      ansiRead [.key (mkCharEvent hi), .key (mkCharEvent lo)] ⟨fd, 0⟩ =
        (utf8Encode ((hi - 0xd800) * 0x400 + (lo - 0xdc00) + 0x10000),
          ⟨fd, 0⟩) ∧
      (utf8Encode ((hi - 0xd800) * 0x400 + (lo - 0xdc00) + 0x10000)).length = 4) ∧
    (∀ s, utf16IsSurrogate s → processChar s 0 = ([], s)) := by
  have hchar : ∀ s, utf16IsSurrogate s → processChar s 0 = ([], s) := by
    intro s hs
    unfold processChar
    rw [if_neg (by omega), if_pos hs]
  have hcomb : ∀ hi lo, 0xd800 ≤ hi → hi < 0xdc00 → 0xdc00 ≤ lo → lo < 0xe000 →
      processChar lo hi =
        (utf8Encode ((hi - 0xd800) * 0x400 + (lo - 0xdc00) + 0x10000), 0) := by
    intro hi lo h1 h2 h3 h4
    have hd : utf16DecodeRune hi lo =
        (hi - 0xd800) * 0x400 + (lo - 0xdc00) + 0x10000 := by
      unfold utf16DecodeRune
      rw [if_pos ⟨h1, h2, h3, h4⟩]
    unfold processChar
    rw [if_pos (by omega : hi ≠ 0), hd, if_neg (by omega)]
  refine ⟨?_, ?_, hchar⟩
  · intro hi fd h1 h2
    simp only [ansiRead, processRecord]
    rw [processKeyEvent_mkCharEvent hi (by omega) fd 0,
      hchar hi ⟨h1, by omega⟩]
    rfl
  · intro hi lo fd h1 h2 h3 h4
    constructor
    · simp only [ansiRead, processRecord]
      rw [processKeyEvent_mkCharEvent hi (by omega) fd 0,
        hchar hi ⟨h1, by omega⟩]
      dsimp only
      rw [processKeyEvent_mkCharEvent lo (by omega) fd hi,
        hcomb hi lo h1 h2 h3 h4]
      dsimp only
      rw [List.nil_append, List.append_nil]
    · unfold utf8Encode
      rw [if_neg (by omega), if_neg (by omega), if_neg (by omega),
        if_neg (by omega), if_pos (by omega)]
      rfl

/-- witness for C3 at the concrete pair U+D83D U+DE00 (the pair encoding
U+1F600). -/
theorem surrogate_pair_roundtrip_witness :
    ansiRead [.key (mkCharEvent 0xd83d)] ⟨3, 0⟩ = ([], ⟨3, 0xd83d⟩) ∧
    ansiRead [.key (mkCharEvent 0xd83d), .key (mkCharEvent 0xde00)] ⟨3, 0⟩ =
      ([0xf0, 0x9f, 0x98, 0x80], ⟨3, 0⟩) := by
  have h1 := surrogate_pair_roundtrip.1 0xd83d 3 (by decide) (by decide)
  have h2 := (surrogate_pair_roundtrip.2.1 0xd83d 0xde00 3
    (by decide) (by decide) (by decide) (by decide)).1
  refine ⟨h1, ?_⟩
  rw [h2]
  decide

/-- one loop iteration outcome of the stdin pump goroutine in
invokeInOutPipes: a read returning data together with the success of the
following write, end-of-stream, or a read error. -/
inductive StdinStep where
  | readOk (n : Nat) (writeOk : Bool)
  | readEof
  | readErr
deriving DecidableEq, Repr

/-- stdin pump loop of MinSSH.invokeInOutPipes: returns how many times
rStdin.Close was called and whether the goroutine returned.  A read
error (end-of-stream included) closes the remote stdin and returns; a
write error returns without closing; otherwise the loop continues, still
running when the trace ends. -/
def stdinPump : List StdinStep → Nat × Bool
  | [] => (0, false)
  | .readEof :: _ => (1, true)
  | .readErr :: _ => (1, true)
  | .readOk n writeOk :: rest =>
    if 0 < n ∧ writeOk = false then (0, true) else stdinPump rest

/-- a step that keeps the pump looping: a successful read whose write
(when any data was read) succeeded. -/
def stdinStepOk : StdinStep → Prop
  | .readOk n writeOk => n = 0 ∨ writeOk = true
  | _ => False

instance (s : StdinStep) : Decidable (stdinStepOk s) := by
  cases s <;> (unfold stdinStepOk; infer_instance)

lemma stdinPump_le_one : ∀ tr, (stdinPump tr).1 ≤ 1 := by
  intro tr
  induction tr with
  | nil => exact Nat.zero_le 1
  | cons s rest ih =>
    cases s with
    | readEof => exact Nat.le_refl 1
    | readErr => exact Nat.le_refl 1
    | readOk n wok =>
      unfold stdinPump
      by_cases h : 0 < n ∧ wok = false
      · rw [if_pos h]; exact Nat.zero_le 1
      · rw [if_neg h]; exact ih

/-- C4: the local-input pump terminates as soon as the input source
returns end-of-stream or an error, and on that termination it closes the
remote stdin write end exactly once; a double close is never attempted
on any trace; and once the terminating read is processed the rest of the
trace is irrelevant (the pump stops and is never restarted). -/
theorem stdin_pump_closes_once :
    (∀ pre post e, (∀ s ∈ pre, stdinStepOk s) →
      (e = StdinStep.readEof ∨ e = StdinStep.readErr) →
      stdinPump (pre ++ e :: post) = (1, true)) ∧
    (∀ tr, (stdinPump tr).1 ≤ 1) ∧
    (∀ pre post1 post2 e, (e = StdinStep.readEof ∨ e = StdinStep.readErr) →
      stdinPump (pre ++ e :: post1) = stdinPump (pre ++ e :: post2)) := by
  refine ⟨?_, stdinPump_le_one, ?_⟩
  · intro pre post e hpre he
    induction pre with
    | nil =>
      rcases he with h | h <;> subst h <;> rfl
    | cons s rest ih =>
      have hs : stdinStepOk s := hpre s (by simp)
      have hrest : ∀ x ∈ rest, stdinStepOk x := by
        intro x hx; exact hpre x (by simp [hx])
      cases s with
      | readEof => exact absurd hs (by unfold stdinStepOk; simp)
      | readErr => exact absurd hs (by unfold stdinStepOk; simp)
      | readOk n wok =>
        unfold stdinStepOk at hs
        have hcond : ¬ (0 < n ∧ wok = false) := by
          rcases hs with h | h
          · omega
          · intro hc; rw [h] at hc; exact absurd hc.2 (by simp)
        show stdinPump (StdinStep.readOk n wok :: (rest ++ e :: post)) = (1, true)
        unfold stdinPump
        rw [if_neg hcond]
        exact ih hrest
  · intro pre post1 post2 e he
    induction pre with
    | nil => rcases he with h | h <;> subst h <;> rfl
    | cons s rest ih =>
      cases s with
      | readEof => rfl
      | readErr => rfl
      | readOk n wok =>
        show stdinPump (StdinStep.readOk n wok :: (rest ++ e :: post1)) =
          stdinPump (StdinStep.readOk n wok :: (rest ++ e :: post2))
        unfold stdinPump
        by_cases h : 0 < n ∧ wok = false
        · rw [if_pos h, if_pos h]
        · rw [if_neg h, if_neg h]; exact ih

/-- witness for C4: a trace with one successful read/write followed by
end-of-stream closes the remote stdin exactly once. -/
theorem stdin_pump_closes_once_witness :
    stdinPump [StdinStep.readOk 3 true, StdinStep.readEof,
      StdinStep.readOk 1 true] = (1, true) ∧
    stdinPump [StdinStep.readOk 3 true, StdinStep.readEof] =
      stdinPump [StdinStep.readOk 3 true, StdinStep.readEof,
        StdinStep.readOk 1 true] := by
  constructor
  · exact stdin_pump_closes_once.1 [StdinStep.readOk 3 true]
      [StdinStep.readOk 1 true] StdinStep.readEof
      (by intro s hs; simp at hs; subst hs; unfold stdinStepOk; simp)
      (Or.inl rfl)
  · exact stdin_pump_closes_once.2.2 [StdinStep.readOk 3 true] []
      [StdinStep.readOk 1 true] StdinStep.readEof (Or.inl rfl)

/-- Go struct windowChangeReq: four uint32 fields W, H, Wpx, Hpx. -/
structure windowChangeReq where
  W : Nat
  H : Nat
  Wpx : Nat
  Hpx : Nat
deriving DecidableEq, Repr

/-- request value built by invokeResizeTerminal: windowChangeReq with
W and H from the fresh window-size query converted to uint32 and the
pixel fields left at their zero value. -/
def mkWindowChangeReq (newW newH : Nat) : windowChangeReq :=
  { W := newW % 4294967296, H := newH % 4294967296, Wpx := 0, Hpx := 0 }

/-- outcome of one ResizeEvent in the invokeResizeTerminal loop: the
re-query of the window size failed, or it returned (newW, newH) and the
subsequent SendRequest (if one is issued) would succeed or fail. -/
inductive ResizeEv where
  | sizeErr
  | size (newW newH : Nat) (sendOk : Bool)
deriving DecidableEq, Repr

/-- body of the invokeResizeTerminal loop after a ResizeEvent
notification (part_002 lines 593-609): re-query the size, skip on query
error, skip when unchanged, otherwise send one window-change request and
update the remembered size only when the send succeeded. Returns the new
remembered size and the list of requests sent during this step. -/
def resizeStep (st : Nat × Nat) : ResizeEv → (Nat × Nat) × List windowChangeReq
  | .sizeErr => (st, [])
  | .size newW newH sendOk =>
    if newW = st.1 ∧ newH = st.2 then (st, [])
    else if sendOk then ((newW, newH), [mkWindowChangeReq newW newH])
    else (st, [mkWindowChangeReq newW newH])

/-- whole resize pump over a finite stream of events: every event is
processed, none aborts the loop. -/
def resizePump (st : Nat × Nat) : List ResizeEv → (Nat × Nat) × List windowChangeReq
  | [] => (st, [])
  | ev :: rest =>
    ((resizePump (resizeStep st ev).1 rest).1,
      (resizeStep st ev).2 ++ (resizePump (resizeStep st ev).1 rest).2)

/-- C5: on each ResizeEvent the pump re-queries the size; an unchanged
size sends nothing and keeps the remembered values; a changed size sends
exactly one window-change request whose pixel fields are both zero, and
the remembered values are updated only when the send succeeded, so a
failed send leaves them unchanged and the same changed size is re-sent
on the next event; a size-query failure sends nothing; no event outcome
ever aborts the pump (every trace is processed to the end). -/
theorem resize_step_spec :
    (∀ st : Nat × Nat, resizeStep st .sizeErr = (st, [])) ∧
    (∀ (st : Nat × Nat) newW newH sendOk, newW = st.1 ∧ newH = st.2 →
      resizeStep st (.size newW newH sendOk) = (st, [])) ∧
    (∀ (st : Nat × Nat) newW newH sendOk, ¬ (newW = st.1 ∧ newH = st.2) →
      resizeStep st (.size newW newH sendOk) =
        ((if sendOk then (newW, newH) else st),
          [{ W := newW % 4294967296, H := newH % 4294967296,
             Wpx := 0, Hpx := 0 }]) ∧
      (resizeStep st (.size newW newH sendOk)).2.length = 1) ∧
    (∀ (st : Nat × Nat) newW newH, ¬ (newW = st.1 ∧ newH = st.2) →
      (resizeStep st (.size newW newH false)).1 = st ∧
      resizeStep (resizeStep st (.size newW newH false)).1
          (.size newW newH true) =
        ((newW, newH), [mkWindowChangeReq newW newH])) ∧
    (∀ (st : Nat × Nat) (evs : List ResizeEv),
      (resizePump st evs).2.length ≤ evs.length) := by
  refine ⟨fun st => rfl, ?_, ?_, ?_, ?_⟩
  · intro st newW newH sendOk h
    simp only [resizeStep]
    rw [if_pos h]
  · intro st newW newH sendOk h
    constructor
    · simp only [resizeStep, mkWindowChangeReq]
      rw [if_neg h]
      cases sendOk with
      | true => rw [if_pos rfl]; rfl
      | false => rw [if_neg (by simp)]; rfl
    · simp only [resizeStep]
      rw [if_neg h]
      cases sendOk with
      | true => rw [if_pos rfl]; rfl
      | false => rw [if_neg (by simp)]; rfl
  · intro st newW newH h
    have h1 : resizeStep st (.size newW newH false) =
        (st, [mkWindowChangeReq newW newH]) := by
      simp only [resizeStep]
      rw [if_neg h, if_neg (by simp)]
    refine ⟨by rw [h1], ?_⟩
    rw [h1]
    simp only [resizeStep]
    rw [if_neg h]
    simp
  · intro st evs
    induction evs generalizing st with
    | nil => exact Nat.zero_le 0
    | cons ev rest ih =>
      show ((resizeStep st ev).2 ++
        (resizePump (resizeStep st ev).1 rest).2).length ≤ rest.length + 1
      rw [List.length_append]
      have hstep : (resizeStep st ev).2.length ≤ 1 := by
        cases ev with
        | sizeErr => exact Nat.zero_le 1
        | size newW newH sendOk =>
          simp only [resizeStep]
          by_cases hc : newW = st.1 ∧ newH = st.2
          · rw [if_pos hc]; exact Nat.zero_le 1
          · rw [if_neg hc]
            cases sendOk with
            | true => rw [if_pos rfl]; exact Nat.le_refl 1
            | false => rw [if_neg (by simp)]; exact Nat.le_refl 1
      have := ih (resizeStep st ev).1
      omega

/-- witness for C5 at concrete sizes: from remembered size (80, 24), an
unchanged query sends nothing; a change to (100, 40) with a failed send
keeps (80, 24) and the retry with a successful send updates it. -/
theorem resize_step_spec_witness :
    resizeStep (80, 24) (.size 80 24 true) = ((80, 24), []) ∧
    resizeStep (80, 24) (.size 100 40 true) =
      ((100, 40), [{ W := 100, H := 40, Wpx := 0, Hpx := 0 }]) ∧
    (resizeStep (80, 24) (.size 100 40 false)).1 = (80, 24) := by
  refine ⟨?_, ?_, ?_⟩
  · exact resize_step_spec.2.1 (80, 24) 80 24 true ⟨rfl, rfl⟩
  · have := (resize_step_spec.2.2.1 (80, 24) 100 40 true (by decide)).1
    rw [this]; decide
  · exact (resize_step_spec.2.2.2.1 (80, 24) 100 40 (by decide)).1

/-- states of the spec 4.6 session state machine. -/
inductive SessionState where
  | Init
  | RemoteTerminalRequested
  | LocalRawModeSet
  | PumpsRunning
  | Draining
  | Closed
deriving DecidableEq, Repr

/-- outcomes of the environment calls RunInteractive depends on: the
window-size query, RequestPty, the three pipes, Shell and MakeRaw. -/
structure RunEnv where
  winSizeOk : Bool
  noTTY : Bool
  ptyOk : Bool
  stdinPipeOk : Bool
  stdoutPipeOk : Bool
  stderrPipeOk : Bool
  shellOk : Bool
  rawModeOk : Bool
deriving DecidableEq, Repr

/-- MinSSH.prepareRemoteTerminal (part_002 lines 518-552): returns the
first failing step message, or none when the remote terminal is ready.
The pty request is skipped when NoTTY is set. -/
def prepareRemoteTerminal (e : RunEnv) : Option String :=
  if e.winSizeOk = false then
    some "failed to get terminal width and height"
  else if e.noTTY = false ∧ e.ptyOk = false then
    some "request for pseudo terminal failed"
  else if e.stdinPipeOk = false then
    some "failed to get remote stdin pipe"
  else if e.stdoutPipeOk = false then
    some "failed to get remote stdout pipe"
  else if e.stderrPipeOk = false then
    some "failed to get remote stderr pipe"
  else if e.shellOk = false then
    some "failed to start shell"
  else none

/-- MinSSH.prepareLocalTerminal over changeLocalTerminalMode (POSIX):
terminal.MakeRaw either succeeds or the error is wrapped and returned. -/
def prepareLocalTerminal (e : RunEnv) : Option String :=
  if e.rawModeOk = false then
    some "failed to change local terminal mode: failed to set stdin to raw mode"
  else none

/-- observable outcome of one RunInteractive run: the error it returns,
whether raw mode was entered, whether any pump goroutine was started,
and the spec 4.6 states traversed (Closed is appended by the caller's
teardown, which always runs). -/
structure RunOutcome where
  err : Option String
  rawModeEntered : Bool
  pumpsStarted : Bool
  states : List SessionState
deriving DecidableEq, Repr

/-- MinSSH.RunInteractive (part_002 lines 667-700): remote terminal
first, then raw mode, then the resize pump and the three io pumps, then
the signal/exit race; an error in either preparation step returns at
once without starting any pump. -/
def runInteractive (e : RunEnv) : RunOutcome :=
  match prepareRemoteTerminal e with
  | some msg =>
    { err := some msg, rawModeEntered := false, pumpsStarted := false,
      states := [.Init, .Closed] }
  | none =>
    match prepareLocalTerminal e with
    | some msg =>
      { err := some msg, rawModeEntered := false, pumpsStarted := false,
        states := [.Init, .RemoteTerminalRequested, .Closed] }
    | none =>
      { err := none, rawModeEntered := true, pumpsStarted := true,
        states := [.Init, .RemoteTerminalRequested, .LocalRawModeSet,
          .PumpsRunning, .Draining, .Closed] }

/-- C6: if entering raw mode fails the run is fatal: RunInteractive
returns the raw-mode error, no pump is started, and the machine goes
from the raw-mode failure directly to Closed; and any failure while
preparing the remote terminal (window size, pty request, one of the
three pipes, shell start) aborts before raw mode is ever entered, with
no pump started. -/
theorem raw_mode_failure_aborts :
    (∀ e : RunEnv, prepareRemoteTerminal e = none → e.rawModeOk = false →
      (runInteractive e).err =
        some "failed to change local terminal mode: failed to set stdin to raw mode" ∧
      (runInteractive e).pumpsStarted = false ∧
      (runInteractive e).states = [.Init, .RemoteTerminalRequested, .Closed]) ∧
    (∀ (e : RunEnv) msg, prepareRemoteTerminal e = some msg →
      (runInteractive e).rawModeEntered = false ∧
      (runInteractive e).pumpsStarted = false ∧
      (runInteractive e).states = [.Init, .Closed]) := by
  constructor
  · intro e hrem hraw
    unfold runInteractive
    rw [hrem]
    unfold prepareLocalTerminal
    rw [if_pos hraw]
    exact ⟨rfl, rfl, rfl⟩
  · intro e msg hrem
    unfold runInteractive
    rw [hrem]
    exact ⟨rfl, rfl, rfl⟩

/-- witness for C6: an environment where everything succeeds except raw
mode, and one where the pty request fails. -/
theorem raw_mode_failure_aborts_witness :
    (runInteractive ⟨true, false, true, true, true, true, true, false⟩).pumpsStarted
      = false ∧
    (runInteractive ⟨true, false, false, true, true, true, true, true⟩).rawModeEntered
      = false := by
  constructor
  · exact (raw_mode_failure_aborts.1
      ⟨true, false, true, true, true, true, true, false⟩ (by decide) rfl).2.1
  · exact (raw_mode_failure_aborts.2
      ⟨true, false, false, true, true, true, true, true⟩
      "request for pseudo terminal failed" (by decide)).1

/-- result of the wait-for-exit operation as printExitMessage sees it:
success, the typed missing-exit-status error, the typed exit error, or
any other error, each carrying its message text. -/
inductive WaitResult where
  | ok
  | exitMissing (msg : String)
  | exitError (msg : String)
  | otherErr (msg : String)
deriving DecidableEq, Repr

/-- MinSSH.printExitMessage (part_002 lines 651-665): the fixed prefix
followed by the branch picked by the Go type switch on the error. -/
def printExitMessage (host : String) (r : WaitResult) : String :=
  String.append (String.append (String.append "ssh connection to " host) " closed ")
    (match r with
     | .ok => "successfully\n"
     | .exitMissing m =>
       String.append (String.append "but remote didn't send exit status: " m) "\n"
     | .exitError m => String.append (String.append "with error: " m) "\n"
     | .otherErr m => String.append (String.append "with unknown error: " m) "\n")

/-- C8: the session-ending message distinguishes exactly three outcomes:
a nil wait result reports closing successfully, a missing-exit-status
error reports that the remote sent no exit status, and a typed exit
error (or any other error) reports closing with the error detail. -/
theorem exit_message_three_outcomes :
    (∀ host, printExitMessage host .ok =
      String.append (String.append (String.append "ssh connection to " host)
        " closed ") "successfully\n") ∧
    (∀ host m, printExitMessage host (.exitMissing m) =
      String.append (String.append (String.append "ssh connection to " host)
        " closed ")
        (String.append (String.append "but remote didn't send exit status: " m)
          "\n")) ∧
    (∀ host m, printExitMessage host (.exitError m) =
      String.append (String.append (String.append "ssh connection to " host)
        " closed ")
        (String.append (String.append "with error: " m) "\n")) ∧
    (∀ host m, printExitMessage host (.otherErr m) =
      String.append (String.append (String.append "ssh connection to " host)
        " closed ")
        (String.append (String.append "with unknown error: " m) "\n")) :=
  ⟨fun _ => rfl, fun _ _ => rfl, fun _ _ => rfl, fun _ _ => rfl⟩

/-- console mode bits (part_001): input flags to clear for raw mode,
the virtual-terminal input flag, and the two output flags. -/
def enableEchoInput : Nat := 0x0004

def enableLineInput : Nat := 0x0002

def enableProcessedInput : Nat := 0x0001

def enableVirtualTerminalInput : Nat := 0x0200

def enableVirtualTerminalProcessing : Nat := 0x0004

def disableNewlineAutoReturn : Nat := 0x0008

/-- Go a &^ b for b = the three input flags (mask 7): clearing the low
three bits of a mode word. -/
def clearRawInputBits (m : Nat) : Nat :=
  m - (m &&& (enableEchoInput ||| enableProcessedInput ||| enableLineInput))

/-- Windows console environment: the three GetConsoleMode results and
whether SetConsoleMode(fd, mode) succeeds (fd 0 stdin, 1 stdout,
2 stderr). -/
structure WinEnv where
  stdinMode : Option Nat
  stdoutMode : Option Nat
  stderrMode : Option Nat
  setOk : Nat → Nat → Bool

/-- mutable session fields written by the Windows
changeLocalTerminalMode: the three saved mode words and the two
independent emulation flags. -/
structure WinSysInfo where
  stdinMode : Nat
  stdoutMode : Nat
  stderrMode : Nat
  emuStdin : Bool
  emuStdout : Bool
deriving DecidableEq, Repr

/-- stdin block of changeLocalTerminalMode (part_001 lines 265-276):
try the cleared mode with EnableVirtualTerminalInput first, fall back to
the cleared mode alone and flip emuStdin, error when both fail.  Returns
the emuStdin flag and the SetConsoleMode attempts. -/
def stdinModePhase (e : WinEnv) (inM : Nat) :
    Except String (Bool × List (Nat × Nat)) :=
  if e.setOk 0 (clearRawInputBits inM ||| enableVirtualTerminalInput) then
    .ok (false, [(0, clearRawInputBits inM ||| enableVirtualTerminalInput)])
  else if e.setOk 0 (clearRawInputBits inM) then
    .ok (true, [(0, clearRawInputBits inM ||| enableVirtualTerminalInput),
      (0, clearRawInputBits inM)])
  else .error "failed to set local stdin mode"

/-- stdout block (part_001 lines 278-291): try
EnableVirtualTerminalProcessing plus DisableNewlineAutoReturn, then the
processing flag alone; when both fail, zero the saved stdout mode and
flip emuStdout.  Returns (emuStdout, saved stdout mode, attempts). -/
def stdoutModePhase (e : WinEnv) (outM : Nat) :
    Bool × Nat × List (Nat × Nat) :=
  if e.setOk 1 (outM ||| enableVirtualTerminalProcessing |||
      disableNewlineAutoReturn) then
    (false, outM, [(1, outM ||| enableVirtualTerminalProcessing |||
      disableNewlineAutoReturn)])
  else if e.setOk 1 (outM ||| enableVirtualTerminalProcessing) then
    (false, outM, [(1, outM ||| enableVirtualTerminalProcessing |||
      disableNewlineAutoReturn), (1, outM ||| enableVirtualTerminalProcessing)])
  else
    (true, 0, [(1, outM ||| enableVirtualTerminalProcessing |||
      disableNewlineAutoReturn), (1, outM ||| enableVirtualTerminalProcessing)])

/-- stderr block (part_001 lines 293-309): skipped entirely when stdout
fell back to emulation (the saved stderr mode is zeroed); otherwise the
same two attempts against fd 2 using the saved stdout mode word, with no
flag flipped whatever happens.  Returns (saved stderr mode, attempts). -/
def stderrModePhase (e : WinEnv) (emuStdout : Bool) (savedOutM errM : Nat) :
    Nat × List (Nat × Nat) :=
  if emuStdout then (0, [])
  else if e.setOk 2 (savedOutM ||| enableVirtualTerminalProcessing |||
      disableNewlineAutoReturn) then
    (errM, [(2, savedOutM ||| enableVirtualTerminalProcessing |||
      disableNewlineAutoReturn)])
  else
    (errM, [(2, savedOutM ||| enableVirtualTerminalProcessing |||
      disableNewlineAutoReturn), (2, savedOutM ||| enableVirtualTerminalProcessing)])

/-- Windows MinSSH.changeLocalTerminalMode (part_001 lines 247-312):
read the three modes, then run the three phases in order, collecting the
final sysInfo and the trace of SetConsoleMode attempts. -/
def changeLocalTerminalModeWin (e : WinEnv) :
    Except String (WinSysInfo × List (Nat × Nat)) :=
  match e.stdinMode with
  | none => .error "failed to get local stdin mode"
  | some inM =>
    match e.stdoutMode with
    | none => .error "failed to get local stdout mode"
    | some outM =>
      match e.stderrMode with
      | none => .error "failed to get local stderr mode"
      | some errM =>
        match stdinModePhase e inM with
        | .error msg => .error msg
        | .ok (emuIn, attIn) =>
          match stdoutModePhase e outM with
          | (emuOut, savedOutM, attOut) =>
            match stderrModePhase e emuOut savedOutM errM with
            | (savedErrM, attErr) =>
              .ok (WinSysInfo.mk inM savedOutM savedErrM emuIn emuOut,
                attIn ++ attOut ++ attErr)

/-- environment whose console rejects only the virtual-terminal input
mode: the input falls back to emulation, the output does not. -/
def winEnvInputEmu : WinEnv :=
  { stdinMode := some 7, stdoutMode := some 3, stderrMode := some 3,
    setOk := fun fd mode => decide (fd ≠ 0) || decide (mode = 0) }

/-- environment whose console rejects every stdout mode change but
accepts the input ones: the output falls back to emulation, the input
does not. -/
def winEnvOutputEmu : WinEnv :=
  { stdinMode := some 7, stdoutMode := some 3, stderrMode := some 3,
    setOk := fun fd _ => decide (fd = 0) }

/-- C9: on Windows, entering raw mode applies the layered fallback: the
very first SetConsoleMode attempt on stdin requests the native
virtual-terminal input mode, and emuStdin is set exactly when the OS
rejected that request (likewise emuStdout is set exactly when both
virtual-terminal output requests were rejected); the two flags are
independent: one environment yields emuStdin without emuStdout and
another yields emuStdout without emuStdin. -/
theorem win_raw_mode_layered_fallback :
    (∀ (e : WinEnv) inM outM errM sys att,
      e.stdinMode = some inM → e.stdoutMode = some outM →
      e.stderrMode = some errM →
      changeLocalTerminalModeWin e = .ok (sys, att) →
      att.head? = some (0, clearRawInputBits inM ||| enableVirtualTerminalInput) ∧
      sys.emuStdin =
        ! e.setOk 0 (clearRawInputBits inM ||| enableVirtualTerminalInput) ∧
      sys.emuStdout =
        (! e.setOk 1 (outM ||| enableVirtualTerminalProcessing |||
            disableNewlineAutoReturn) &&
         ! e.setOk 1 (outM ||| enableVirtualTerminalProcessing))) ∧
    (∃ sys1 att1, changeLocalTerminalModeWin winEnvInputEmu = .ok (sys1, att1) ∧
      sys1.emuStdin = true ∧ sys1.emuStdout = false) ∧
    (∃ sys2 att2, changeLocalTerminalModeWin winEnvOutputEmu = .ok (sys2, att2) ∧
      sys2.emuStdin = false ∧ sys2.emuStdout = true) := by
  refine ⟨?_, ?_, ?_⟩
  · intro e inM outM errM sys att h1 h2 h3 hok
    unfold changeLocalTerminalModeWin at hok
    simp only [h1, h2, h3] at hok
    by_cases hin : e.setOk 0 (clearRawInputBits inM ||| enableVirtualTerminalInput)
    · simp only [show stdinModePhase e inM = .ok (false,
        [(0, clearRawInputBits inM ||| enableVirtualTerminalInput)]) from by
          unfold stdinModePhase; rw [if_pos hin]] at hok
      by_cases hout1 : e.setOk 1 (outM ||| enableVirtualTerminalProcessing |||
          disableNewlineAutoReturn)
      · simp only [show stdoutModePhase e outM = (false, outM,
          [(1, outM ||| enableVirtualTerminalProcessing |||
            disableNewlineAutoReturn)]) from by
              unfold stdoutModePhase; rw [if_pos hout1]] at hok
        simp only [Except.ok.injEq, Prod.mk.injEq] at hok
        obtain ⟨hsys, hatt⟩ := hok
        subst hsys hatt
        simp [hin, hout1]
      · by_cases hout2 : e.setOk 1 (outM ||| enableVirtualTerminalProcessing)
        · simp only [show stdoutModePhase e outM = (false, outM,
            [(1, outM ||| enableVirtualTerminalProcessing |||
              disableNewlineAutoReturn),
             (1, outM ||| enableVirtualTerminalProcessing)]) from by
                unfold stdoutModePhase; rw [if_neg hout1, if_pos hout2]] at hok
          simp only [Except.ok.injEq, Prod.mk.injEq] at hok
          obtain ⟨hsys, hatt⟩ := hok
          subst hsys hatt
          simp [hin, hout1, hout2]
        · simp only [show stdoutModePhase e outM = (true, 0,
            [(1, outM ||| enableVirtualTerminalProcessing |||
              disableNewlineAutoReturn),
             (1, outM ||| enableVirtualTerminalProcessing)]) from by
                unfold stdoutModePhase; rw [if_neg hout1, if_neg hout2]] at hok
          simp only [Except.ok.injEq, Prod.mk.injEq] at hok
          obtain ⟨hsys, hatt⟩ := hok
          subst hsys hatt
          simp [hin, hout1, hout2]
    · by_cases hbase : e.setOk 0 (clearRawInputBits inM)
      · simp only [show stdinModePhase e inM = .ok (true,
          [(0, clearRawInputBits inM ||| enableVirtualTerminalInput),
           (0, clearRawInputBits inM)]) from by
            unfold stdinModePhase; rw [if_neg hin, if_pos hbase]] at hok
        by_cases hout1 : e.setOk 1 (outM ||| enableVirtualTerminalProcessing |||
            disableNewlineAutoReturn)
        · simp only [show stdoutModePhase e outM = (false, outM,
            [(1, outM ||| enableVirtualTerminalProcessing |||
              disableNewlineAutoReturn)]) from by
                unfold stdoutModePhase; rw [if_pos hout1]] at hok
          simp only [Except.ok.injEq, Prod.mk.injEq] at hok
          obtain ⟨hsys, hatt⟩ := hok
          subst hsys hatt
          simp [hin, hout1]
        · by_cases hout2 : e.setOk 1 (outM ||| enableVirtualTerminalProcessing)
          · simp only [show stdoutModePhase e outM = (false, outM,
              [(1, outM ||| enableVirtualTerminalProcessing |||
                disableNewlineAutoReturn),
               (1, outM ||| enableVirtualTerminalProcessing)]) from by
                  unfold stdoutModePhase; rw [if_neg hout1, if_pos hout2]] at hok
            simp only [Except.ok.injEq, Prod.mk.injEq] at hok
            obtain ⟨hsys, hatt⟩ := hok
            subst hsys hatt
            simp [hin, hout1, hout2]
          · simp only [show stdoutModePhase e outM = (true, 0,
              [(1, outM ||| enableVirtualTerminalProcessing |||
                disableNewlineAutoReturn),
               (1, outM ||| enableVirtualTerminalProcessing)]) from by
                  unfold stdoutModePhase; rw [if_neg hout1, if_neg hout2]] at hok
            simp only [Except.ok.injEq, Prod.mk.injEq] at hok
            obtain ⟨hsys, hatt⟩ := hok
            subst hsys hatt
            simp [hin, hout1, hout2]
      · simp only [show stdinModePhase e inM = .error "failed to set local stdin mode"
          from by unfold stdinModePhase; rw [if_neg hin, if_neg hbase]] at hok
        exact absurd hok (by simp)
  · exact ⟨_, _, rfl, rfl, rfl⟩
  · exact ⟨_, _, rfl, rfl, rfl⟩

/-- witness for C9: in the input-emulation environment the first stdin
attempt is the virtual-terminal input mode and the flags are as the
fallback dictates. -/
theorem win_raw_mode_layered_fallback_witness :
    ∃ sys att, changeLocalTerminalModeWin winEnvInputEmu = .ok (sys, att) ∧
      att.head? = some (0, clearRawInputBits 7 ||| enableVirtualTerminalInput) ∧
      sys.emuStdin = true ∧ sys.emuStdout = false := by
  refine ⟨_, _, rfl, ?_, ?_, ?_⟩
  · exact (win_raw_mode_layered_fallback.1 winEnvInputEmu 7 3 3 _ _
      rfl rfl rfl rfl).1
  · exact (win_raw_mode_layered_fallback.1 winEnvInputEmu 7 3 3 _ _
      rfl rfl rfl rfl).2.1
  · exact (win_raw_mode_layered_fallback.1 winEnvInputEmu 7 3 3 _ _
      rfl rfl rfl rfl).2.2

/-- POSIX MinSSH.restoreLocalTerminalMode (part_002 lines 28-33): when a
snapshot was captured, one terminal.Restore call with it (whose error is
returned); when origMode is nil, no call and a nil error.  The terminal
state is abstracted to a Nat; the result lists the restore calls made. -/
def restoreLocalTerminalModePosix (origMode : Option Nat)
    (restoreOk : Nat → Bool) : List Nat × Option String :=
  match origMode with
  | some m => ([m], if restoreOk m then none else some "restore failed")
  | none => ([], none)

/-- Windows MinSSH.restoreLocalTerminalMode (part_001 lines 314-342):
each stream whose saved mode word is positive gets one SetConsoleMode
call; a stream with a zero word is skipped; any failed call contributes
to the combined error. -/
def restoreLocalTerminalModeWin (sys : WinSysInfo) (setOk : Nat → Nat → Bool) :
    List (Nat × Nat) × Option String :=
  ((if 0 < sys.stdinMode then [(0, sys.stdinMode)] else []) ++
   (if 0 < sys.stdoutMode then [(1, sys.stdoutMode)] else []) ++
   (if 0 < sys.stderrMode then [(2, sys.stderrMode)] else []),
   if (0 < sys.stdinMode ∧ setOk 0 sys.stdinMode = false) ∨
      (0 < sys.stdoutMode ∧ setOk 1 sys.stdoutMode = false) ∨
      (0 < sys.stderrMode ∧ setOk 2 sys.stderrMode = false) then
     some "failed to restore"
   else none)

/-- MinSSH.Close (part_002 lines 501-512) as far as the local terminal
is concerned: run restoreLocalTerminalMode and log its error when there
is one; returns the restore calls made and whether an error was
logged. -/
def closeRunPosix (origMode : Option Nat) (restoreOk : Nat → Bool) :
    List Nat × Bool :=
  ((restoreLocalTerminalModePosix origMode restoreOk).1,
   ((restoreLocalTerminalModePosix origMode restoreOk).2).isSome)

/-- C10: when the terminal-mode snapshot was never captured, restoring
is a no-op: on POSIX a nil origMode makes restoreLocalTerminalMode
perform no set call and return nil; on Windows a zero saved mode word
for a stream suppresses the set call for that stream, and all-zero words
yield no calls and a nil error; consequently Close before raw mode was
entered makes no set call and logs no restoration error. -/
theorem restore_untouched_when_unset :
    (∀ restoreOk, restoreLocalTerminalModePosix none restoreOk = ([], none)) ∧
    (∀ restoreOk, closeRunPosix none restoreOk = ([], false)) ∧
    (∀ (sys : WinSysInfo) setOk, sys.stdinMode = 0 →
      ∀ p ∈ (restoreLocalTerminalModeWin sys setOk).1, p.1 ≠ 0) ∧
    (∀ (sys : WinSysInfo) setOk, sys.stdinMode = 0 → sys.stdoutMode = 0 →
      sys.stderrMode = 0 →
      restoreLocalTerminalModeWin sys setOk = ([], none)) := by
  refine ⟨fun _ => rfl, fun _ => rfl, ?_, ?_⟩
  · intro sys setOk hin p hp
    unfold restoreLocalTerminalModeWin at hp
    rw [hin, if_neg (by omega : ¬ (0:Nat) < 0), List.nil_append] at hp
    rcases List.mem_append.mp hp with h | h
    · by_cases ho : 0 < sys.stdoutMode
      · rw [if_pos ho] at h
        rw [List.mem_singleton.mp h]
        exact one_ne_zero
      · rw [if_neg ho] at h
        exact absurd h (List.not_mem_nil p)
    · by_cases ho : 0 < sys.stderrMode
      · rw [if_pos ho] at h
        rw [List.mem_singleton.mp h]
        exact two_ne_zero
      · rw [if_neg ho] at h
        exact absurd h (List.not_mem_nil p)
  · intro sys setOk hin hout herr
    unfold restoreLocalTerminalModeWin
    rw [hin, hout, herr]
    rw [if_neg (by omega), if_neg (by omega), if_neg (by omega),
      if_neg (by simp)]
    rfl

/-- witness for C10 at a concrete all-zero Windows sysInfo and a nil
POSIX snapshot. -/
theorem restore_untouched_when_unset_witness :
    restoreLocalTerminalModePosix none (fun _ => false) = ([], none) ∧
    closeRunPosix none (fun _ => false) = ([], false) ∧
    restoreLocalTerminalModeWin (WinSysInfo.mk 0 0 0 false false)
      (fun _ _ => false) = ([], none) := by
  refine ⟨restore_untouched_when_unset.1 _, restore_untouched_when_unset.2.1 _,
    restore_untouched_when_unset.2.2.2 (WinSysInfo.mk 0 0 0 false false)
      (fun _ _ => false) rfl rfl rfl⟩

/-- control point of the watchTerminalResize goroutine: sitting in the
select, blocked in the channel send of the tick case, or returned (its
deferred close of the output channel having run). -/
inductive WatcherPC where
  | selecting
  | sending
  | done
deriving DecidableEq, Repr

/-- joint configuration of the resize watcher (part_002 lines 39-64 and
part_001 lines 352-376), its capacity-one output channel, the
cancellation scope and the consuming resize-pump goroutine. bufFull
says the channel buffer holds an undelivered notification; tickPending
says a timer tick or SIGWINCH delivery is ready to be received;
chClosed says close(ch) has run. -/
structure WatcherCfg where
  pc : WatcherPC
  bufFull : Bool
  cancelled : Bool
  consumerAlive : Bool
  tickPending : Bool
  chClosed : Bool
deriving DecidableEq, Repr

/-- interleaving semantics of the watcher loop and its environment,
transcribed from the Go select: in the select the goroutine may take the
ctx.Done case once cancelled (running the deferred close) or take the
tick case; the unguarded send inside the tick case completes only when
the buffer has room; the consumer may receive while alive and may return
via its own ctx.Done case once cancelled; cancellation and ticks come
from the environment.  There is no transition out of the sending state
on cancellation: the Go send is not wrapped in a select with
ctx.Done. -/
inductive WStep : WatcherCfg → WatcherCfg → Prop where
  | cancel (c : WatcherCfg) : c.cancelled = false →
      WStep c { c with cancelled := true }
  | tickFire (c : WatcherCfg) : c.tickPending = false →
      WStep c { c with tickPending := true }
  | selCancel (c : WatcherCfg) : c.pc = .selecting → c.cancelled = true →
      WStep c { c with pc := .done, chClosed := true }
  | selTickRoom (c : WatcherCfg) : c.pc = .selecting → c.tickPending = true →
      c.bufFull = false →
      WStep c { c with tickPending := false, bufFull := true }
  | selTickBlock (c : WatcherCfg) : c.pc = .selecting → c.tickPending = true →
      c.bufFull = true →
      WStep c { c with tickPending := false, pc := .sending }
  | sendComplete (c : WatcherCfg) : c.pc = .sending → c.bufFull = false →
      WStep c { c with bufFull := true, pc := .selecting }
  | consumerRecv (c : WatcherCfg) : c.consumerAlive = true → c.bufFull = true →
      WStep c { c with bufFull := false }
  | consumerExit (c : WatcherCfg) : c.consumerAlive = true →
      c.cancelled = true →
      WStep c { c with consumerAlive := false }

/-- reachability in the watcher system. -/
def WReach : WatcherCfg → WatcherCfg → Prop :=
  Relation.ReflTransGen WStep

/-- initial configuration: watcher in its select, empty channel, not
cancelled, consumer running. -/
def watcherInit : WatcherCfg :=
  { pc := .selecting, bufFull := false, cancelled := false,
    consumerAlive := true, tickPending := false, chClosed := false }

/-- the problem configuration: the watcher blocked in the channel send,
buffer full, scope cancelled, consumer gone. -/
def watcherStuck : WatcherCfg :=
  { pc := .sending, bufFull := true, cancelled := true,
    consumerAlive := false, tickPending := false, chClosed := false }

lemma watcherStuck_invariant (c d : WatcherCfg) (hstep : WStep c d)
    (h : c.pc = .sending ∧ c.bufFull = true ∧ c.cancelled = true ∧
      c.consumerAlive = false ∧ c.chClosed = false) :
    d.pc = .sending ∧ d.bufFull = true ∧ d.cancelled = true ∧
      d.consumerAlive = false ∧ d.chClosed = false := by
  obtain ⟨hpc, hbuf, hcan, hcons, hcl⟩ := h
  cases hstep with
  | cancel hc => rw [hcan] at hc; exact absurd hc (by simp)
  | tickFire ht => exact ⟨hpc, hbuf, hcan, hcons, hcl⟩
  | selCancel hs hc => rw [hpc] at hs; exact absurd hs (by simp)
  | selTickRoom hs ht hb => rw [hpc] at hs; exact absurd hs (by simp)
  | selTickBlock hs ht hb => rw [hpc] at hs; exact absurd hs (by simp)
  | sendComplete hs hb => rw [hbuf] at hb; exact absurd hb (by simp)
  | consumerRecv hal hb => rw [hcons] at hal; exact absurd hal (by simp)
  | consumerExit hal hc => rw [hcons] at hal; exact absurd hal (by simp)

/-- C7 shows the opposite of the claim: the stuck configuration is
reachable from the initial one by a legal schedule (tick delivered and
buffered, second tick taken with the buffer still full so the send
blocks, scope cancelled, consumer exits through its ctx.Done case), the
scope is cancelled there, and from it the watcher remains blocked in the
send forever: in every reachable future the output channel is never
closed and the goroutine never returns, so cancellation is ignored while
blocked sending to a departed consumer. -/
theorem resize_watcher_cancel_stuck :
    WReach watcherInit watcherStuck ∧
    watcherStuck.cancelled = true ∧
    (∀ c, WReach watcherStuck c →
      c.chClosed = false ∧ c.pc = WatcherPC.sending) := by
  refine ⟨?_, rfl, ?_⟩
  · have s1 : WStep watcherInit
        { pc := .selecting, bufFull := false, cancelled := false,
          consumerAlive := true, tickPending := true, chClosed := false } :=
      WStep.tickFire watcherInit rfl
    have s2 : WStep
        { pc := .selecting, bufFull := false, cancelled := false,
          consumerAlive := true, tickPending := true, chClosed := false }
        { pc := .selecting, bufFull := true, cancelled := false,
          consumerAlive := true, tickPending := false, chClosed := false } :=
      WStep.selTickRoom _ rfl rfl rfl
    have s3 : WStep
        { pc := .selecting, bufFull := true, cancelled := false,
          consumerAlive := true, tickPending := false, chClosed := false }
        { pc := .selecting, bufFull := true, cancelled := false,
          consumerAlive := true, tickPending := true, chClosed := false } :=
      WStep.tickFire _ rfl
    have s4 : WStep
        { pc := .selecting, bufFull := true, cancelled := false,
          consumerAlive := true, tickPending := true, chClosed := false }
        { pc := .sending, bufFull := true, cancelled := false,
          consumerAlive := true, tickPending := false, chClosed := false } :=
      WStep.selTickBlock _ rfl rfl rfl
    have s5 : WStep
        { pc := .sending, bufFull := true, cancelled := false,
          consumerAlive := true, tickPending := false, chClosed := false }
        { pc := .sending, bufFull := true, cancelled := true,
          consumerAlive := true, tickPending := false, chClosed := false } :=
      WStep.cancel _ rfl
    have s6 : WStep
        { pc := .sending, bufFull := true, cancelled := true,
          consumerAlive := true, tickPending := false, chClosed := false }
        watcherStuck :=
      WStep.consumerExit _ rfl rfl
    exact Relation.ReflTransGen.head s1 (Relation.ReflTransGen.head s2
      (Relation.ReflTransGen.head s3 (Relation.ReflTransGen.head s4
        (Relation.ReflTransGen.head s5 (Relation.ReflTransGen.single s6)))))
  · intro c hreach
    have hinv : c.pc = .sending ∧ c.bufFull = true ∧ c.cancelled = true ∧
        c.consumerAlive = false ∧ c.chClosed = false := by
      induction hreach with
      | refl => exact ⟨rfl, rfl, rfl, rfl, rfl⟩
      | tail hsteps hstep ih => exact watcherStuck_invariant _ _ hstep ih
    exact ⟨hinv.2.2.2.2, hinv.1⟩
